import Mathlib

/-!
Shallow embedding of the feasibility core of `feasibility.py`
(`compute_outputs` and `sensitivity`) and proofs of the specification
claims about it.

Modelling conventions:
* Python floats are modelled by `ℚ` (all spec claims are about exact
  arithmetic identities, presence/absence of fields, and orderings).
* A Python dict value that is absent, `None`, or `""` on the paths the
  code inspects (`inputs[k] in [None, ""]`) is modelled as `Option.none`;
  a numeric value as `Option.some`.
* Python exceptions (`ValueError` for the missing-field check,
  `KeyError` for the default-table lookups `DEFAULTS[...][key]`) are
  modelled by `Except CalcErr`.  Note that `dict.get(k, default_expr)`
  evaluates `default_expr` eagerly in Python, so the table lookup can
  raise even when the key `k` is present; the embedding preserves this
  evaluation order.
* The enum-valued fields `otopark_tipi` / `konut_sinifi` are strings, as
  in the source, so that unrecognized enum values can be modelled.
-/

/-- Input record of `compute_outputs` (field names as in the source dict). -/
structure Inputs where
  arsa_alani_m2 : Option ℚ
  emsal : Option ℚ
  satilabilir_katsayi : Option ℚ
  otopark_tipi : Option String
  otopark_katsayi : Option ℚ
  konut_sinifi : Option String
  insaat_maliyet_usd_m2 : Option ℚ
  arsa_toplam_degeri_usd : Option ℚ
  ortalama_konut_m2 : Option ℚ
  satis_birim_fiyat_usd_m2 : Option ℚ
deriving DecidableEq, Repr

/-- Errors `compute_outputs` can raise: the explicit
`ValueError("Eksik alan: k")` for a missing required field, and Python's
`KeyError` from the `DEFAULTS` table lookups. -/
inductive CalcErr where
  | missingField (field : String)
  | keyError (key : String)
deriving DecidableEq, Repr

instance {ε α : Type} [DecidableEq ε] [DecidableEq α] : DecidableEq (Except ε α) :=
  fun a b =>
    match a, b with
    | .ok x, .ok y =>
      if h : x = y then .isTrue (by rw [h])
      else .isFalse (by intro hc; cases hc; exact h rfl)
    | .error e1, .error e2 =>
      if h : e1 = e2 then .isTrue (by rw [h])
      else .isFalse (by intro hc; cases hc; exact h rfl)
    | .ok _, .error _ => .isFalse (by intro hc; cases hc)
    | .error _, .ok _ => .isFalse (by intro hc; cases hc)

/-- DEFAULTS["otopark_katsayi"]: ACIK ↦ 1.20, KAPALI ↦ 1.60, else KeyError. -/
def otoparkKatsayiDefault (t : String) : Option ℚ :=
  if t = "ACIK" then some (6/5)
  else if t = "KAPALI" then some (8/5)
  else none

/-- DEFAULTS["insaat_maliyet_usd_m2"]: ALT ↦ 700, ORTA ↦ 900, YUKSEK ↦ 1100,
else KeyError. -/
def insaatMaliyetDefault (s : String) : Option ℚ :=
  if s = "ALT" then some 700
  else if s = "ORTA" then some 900
  else if s = "YUKSEK" then some 1100
  else none

/-- The required-field loop: returns the first required field that is
absent/None/empty (`for k in required: if k not in inputs or inputs[k] in
[None, ""]: raise`), or `none` when all five are present. -/
def requiredMissing (i : Inputs) : Option String :=
  if i.arsa_alani_m2 = none then some "arsa_alani_m2"
  else if i.emsal = none then some "emsal"
  else if i.otopark_tipi = none then some "otopark_tipi"
  else if i.konut_sinifi = none then some "konut_sinifi"
  else if i.arsa_toplam_degeri_usd = none then some "arsa_toplam_degeri_usd"
  else none

/-- All five required fields present and non-null/non-empty. -/
def requiredPresent (i : Inputs) : Prop :=
  i.arsa_alani_m2 ≠ none ∧ i.emsal ≠ none ∧ i.otopark_tipi ≠ none ∧
  i.konut_sinifi ≠ none ∧ i.arsa_toplam_degeri_usd ≠ none

instance (i : Inputs) : Decidable (requiredPresent i) := by
  unfold requiredPresent; infer_instance

/-- Output record of `compute_outputs` (field names as in the source dict).
`Option ℚ` fields are the ones the source fills with `None` markers. -/
structure Output where
  emsal_insaat_alani_m2 : ℚ
  satilabilir_alan_m2 : ℚ
  toplam_insaat_alani_m2 : ℚ
  insaat_maliyeti_usd : ℚ
  arsa_degeri_usd : ℚ
  toplam_proje_maliyeti_usd : ℚ
  insaat_maliyeti_try : Option ℚ
  arsa_degeri_try : Option ℚ
  toplam_proje_maliyeti_try : Option ℚ
  yaklasik_konut_adedi : ℤ
  kalan_satilabilir_alan_m2 : ℚ
  breakeven_usd_m2 : ℚ
  target_10_usd_m2 : ℚ
  target_30_usd_m2 : ℚ
  target_50_usd_m2 : ℚ
  breakeven_try_m2 : Option ℚ
  target_10_try_m2 : Option ℚ
  target_30_try_m2 : Option ℚ
  target_50_try_m2 : Option ℚ
  satis_birim_fiyat_usd_m2 : Option ℚ
  satis_birim_fiyat_try_m2 : Option ℚ
  proje_hasilati_usd : Option ℚ
  proje_hasilati_try : Option ℚ
  proje_kari_usd : Option ℚ
  proje_kari_try : Option ℚ
  brut_karlilik_orani : Option ℚ
deriving DecidableEq, Repr

/-- `to_try(x_usd)`: `None` when `x_usd is None` or no rate, else the product. -/
def toTryOpt (rate : Option ℚ) (x : Option ℚ) : Option ℚ :=
  match x, rate with
  | some v, some r => some (v * r)
  | _, _ => none

/-- `to_try` applied to an always-present USD value. -/
def toTryVal (rate : Option ℚ) (v : ℚ) : Option ℚ :=
  match rate with
  | some r => some (v * r)
  | none => none

/-- Revenue-mode block (lines 131-142): activated only when a sales price
is present and `> 0`; returns `(hasilat, kar, brut_karlilik)`. -/
def revTriple (satilabilir toplam : ℚ) (satis : Option ℚ) : Option (ℚ × ℚ × ℚ) :=
  match satis with
  | some s =>
    if 0 < s then
      some (satilabilir * s, satilabilir * s - toplam,
        if 0 < toplam then (satilabilir * s - toplam) / toplam else 0)
    else none
  | none => none

/-- The pure arithmetic of `compute_outputs` (lines 56-142), after the
required-field check and the default-table lookups have resolved every
driving parameter to a number. -/
def coreOutputs (arsa emsal satkat otokat insbirim arsadeg ortk : ℚ)
    (satis : Option ℚ) (rate : Option ℚ) : Output :=
  let emsal_insaat := arsa * emsal
  let satilabilir := emsal_insaat * satkat
  let insaat_alani := satilabilir * otokat
  let insaat_maliyeti := insaat_alani * insbirim
  let toplam := insaat_maliyeti + arsadeg
  let adedi_raw : ℚ := if 0 < ortk then satilabilir / ortk else 0
  let adedi : ℤ := if 0 < adedi_raw then ⌊adedi_raw⌋ else 0
  let kalan : ℚ := if 0 < adedi then satilabilir - (adedi : ℚ) * ortk else satilabilir
  let breakeven : ℚ := if 0 < satilabilir then toplam / satilabilir else 0
  let target10 : ℚ := if 0 < satilabilir then toplam * (1 + 1/10) / satilabilir else 0
  let target30 : ℚ := if 0 < satilabilir then toplam * (1 + 3/10) / satilabilir else 0
  let target50 : ℚ := if 0 < satilabilir then toplam * (1 + 5/10) / satilabilir else 0
  let rev := revTriple satilabilir toplam satis
  { emsal_insaat_alani_m2 := emsal_insaat
    satilabilir_alan_m2 := satilabilir
    toplam_insaat_alani_m2 := insaat_alani
    insaat_maliyeti_usd := insaat_maliyeti
    arsa_degeri_usd := arsadeg
    toplam_proje_maliyeti_usd := toplam
    insaat_maliyeti_try := toTryVal rate insaat_maliyeti
    arsa_degeri_try := toTryVal rate arsadeg
    toplam_proje_maliyeti_try := toTryVal rate toplam
    yaklasik_konut_adedi := adedi
    kalan_satilabilir_alan_m2 := kalan
    breakeven_usd_m2 := breakeven
    target_10_usd_m2 := target10
    target_30_usd_m2 := target30
    target_50_usd_m2 := target50
    breakeven_try_m2 := toTryVal rate breakeven
    target_10_try_m2 := toTryVal rate target10
    target_30_try_m2 := toTryVal rate target30
    target_50_try_m2 := toTryVal rate target50
    satis_birim_fiyat_usd_m2 := satis
    satis_birim_fiyat_try_m2 := toTryOpt rate satis
    proje_hasilati_usd := (rev.map fun t => t.1)
    proje_hasilati_try := toTryOpt rate (rev.map fun t => t.1)
    proje_kari_usd := (rev.map fun t => t.2.1)
    proje_kari_try := toTryOpt rate (rev.map fun t => t.2.1)
    brut_karlilik_orani := (rev.map fun t => t.2.2) }

/-- The deterministic warning list of `compute_outputs` (lines 144-179);
messages rendered in plain ASCII. -/
def coreWarnings (emsal arsa satkat otokat arsadeg insbirim ortk : ℚ)
    (rate : Option ℚ) (brut : Option ℚ) : List String :=
  (if emsal ≤ 0 then ["Emsal 0 veya negatif olamaz."] else []) ++
  (if arsa ≤ 0 then ["Arsa alani 0 veya negatif olamaz."] else []) ++
  (if satkat ≤ 0 then ["Satilabilir katsayi 0 veya negatif olamaz."] else []) ++
  (if otokat ≤ 0 then ["Otopark katsayisi 0 veya negatif olamaz."] else []) ++
  (if arsadeg < 0 then ["Arsa degeri negatif olamaz."] else []) ++
  (if insbirim ≤ 0 then ["Insaat maliyeti (USD/m2) 0 veya negatif olamaz."] else []) ++
  (if 5 < emsal then ["Emsal oldukca yuksek gorunuyor."] else []) ++
  (if satkat < 1 ∨ (8/5 : ℚ) < satkat then ["Satilabilir katsayi alisilmadik aralikta olabilir."] else []) ++
  (if ortk < 60 ∨ 250 < ortk then ["Ortalama konut m2 degeri alisilmadik olabilir."] else []) ++
  (match rate with
   | none => ["USD/TRY kuru bulunamadi (TL sutunlari bos olabilir)."]
   | some _ => []) ++
  (match brut with
   | some gm =>
     if gm < 0 then ["Proje zararda gorunuyor (brut karlilik negatif)."]
     else if gm < 1/10 then ["Brut karlilik yuzde 10 altinda (dusuk)."]
     else if gm < 1/5 then ["Brut karlilik yuzde 10-20 araliginda (orta)."]
     else []
   | none => [])

/-- The successful-path result of `compute_outputs`: resolve every driving
parameter (explicit value, else its default), run the arithmetic, then
compute the warning list (the profitability warnings read the gross-margin
field of the freshly built output, as in the source). -/
def mkResult (i : Inputs) (rate : Option ℚ) (otoDef insDef : ℚ) :
    Output × List String :=
  let o := coreOutputs (i.arsa_alani_m2.getD 0) (i.emsal.getD 0)
    (i.satilabilir_katsayi.getD (5/4)) (i.otopark_katsayi.getD otoDef)
    (i.insaat_maliyet_usd_m2.getD insDef) (i.arsa_toplam_degeri_usd.getD 0)
    (i.ortalama_konut_m2.getD 120) i.satis_birim_fiyat_usd_m2 rate
  (o, coreWarnings (i.emsal.getD 0) (i.arsa_alani_m2.getD 0)
    (i.satilabilir_katsayi.getD (5/4)) (i.otopark_katsayi.getD otoDef)
    (i.arsa_toplam_degeri_usd.getD 0) (i.insaat_maliyet_usd_m2.getD insDef)
    (i.ortalama_konut_m2.getD 120) rate o.brut_karlilik_orani)

/-- `compute_outputs(inputs, usd_try_rate)`: required-field check, eager
default-table lookups (which can raise `KeyError` even when an override is
present, because `dict.get(k, DEFAULTS[...][key])` evaluates its second
argument first), then the pure arithmetic and the warning list. -/
def compute_outputs (inputs : Inputs) (usd_try_rate : Option ℚ) :
    Except CalcErr (Output × List String) :=
  match requiredMissing inputs with
  | some k => .error (.missingField k)
  | none =>
    match otoparkKatsayiDefault (inputs.otopark_tipi.getD "") with
    | none => .error (.keyError (inputs.otopark_tipi.getD ""))
    | some otoDef =>
      match insaatMaliyetDefault (inputs.konut_sinifi.getD "") with
      | none => .error (.keyError (inputs.konut_sinifi.getD ""))
      | some insDef => .ok (mkResult inputs usd_try_rate otoDef insDef)

/-- One cell of the sensitivity grid (dict at lines 213-219). -/
structure SensCell where
  sales_mult : ℚ
  cost_mult : ℚ
  profit_usd : Option ℚ
  profit_try : Option ℚ
  gross_margin : Option ℚ
deriving DecidableEq, Repr

/-- Result dict of `sensitivity` (line 222): base output, grid, and the
two multiplier lists.  No warning list is part of this record. -/
structure SensResult where
  base : Output
  grid : List (List SensCell)
  sales_mults : List ℚ
  cost_mults : List ℚ
deriving DecidableEq, Repr

/-- `sales_mults = [0.9, 1.0, 1.1]`. -/
def salesMults : List ℚ := [9/10, 1, 11/10]

/-- `cost_mults = [0.9, 1.0, 1.1]`. -/
def costMults : List ℚ := [9/10, 1, 11/10]

/-- Sequential effectful map: the Python `for` loop appending to a list,
propagating the first raised exception. -/
def mapExcept (f : α → Except CalcErr β) : List α → Except CalcErr (List β)
  | [] => .ok []
  | x :: xs =>
    match f x with
    | .error e => .error e
    | .ok y =>
      match mapExcept f xs with
      | .error e => .error e
      | .ok ys => .ok (y :: ys)

/-- The per-cell input modification (lines 203-210): sale price scaled by
`sm`; construction-cost override scaled by `cm` when present, else the
housing-class default (a `DEFAULTS` lookup that can raise `KeyError`)
scaled by `cm`. -/
def sensTmp (inputs : Inputs) (s sm cm : ℚ) : Except CalcErr Inputs :=
  match inputs.insaat_maliyet_usd_m2 with
  | some c =>
    .ok { inputs with satis_birim_fiyat_usd_m2 := some (s * sm),
                      insaat_maliyet_usd_m2 := some (c * cm) }
  | none =>
    match inputs.konut_sinifi with
    | none => .error (.keyError "konut_sinifi")
    | some cls =>
      match insaatMaliyetDefault cls with
      | none => .error (.keyError cls)
      | some d =>
        .ok { inputs with satis_birim_fiyat_usd_m2 := some (s * sm),
                          insaat_maliyet_usd_m2 := some (d * cm) }

/-- One grid cell (lines 203-219): build the modified inputs, call the
calculator, record profit (both currencies) and gross margin; the
sub-call's warnings are dropped. -/
def cellOf (inputs : Inputs) (s sm cm : ℚ) (rate : Option ℚ) :
    Except CalcErr SensCell :=
  match sensTmp inputs s sm cm with
  | .error e => .error e
  | .ok tmp =>
    match compute_outputs tmp rate with
    | .error e => .error e
    | .ok (out, _) =>
      .ok ⟨sm, cm, out.proje_kari_usd, out.proje_kari_try, out.brut_karlilik_orani⟩

/-- One grid row: inner loop over the sale multipliers. -/
def rowOf (inputs : Inputs) (s cm : ℚ) (rate : Option ℚ) :
    Except CalcErr (List SensCell) :=
  mapExcept (fun sm => cellOf inputs s sm cm rate) salesMults

/-- `sensitivity(inputs, usd_try_rate)` (lines 184-222): base call (its
warnings are discarded at line 190), short-circuit to an empty grid when
the sale price is absent/empty, otherwise the 3x3 grid with the outer
loop over cost multipliers. -/
def sensitivity (inputs : Inputs) (usd_try_rate : Option ℚ) :
    Except CalcErr SensResult :=
  match compute_outputs inputs usd_try_rate with
  | .error e => .error e
  | .ok (base_out, _) =>
    match inputs.satis_birim_fiyat_usd_m2 with
    | none => .ok ⟨base_out, [], salesMults, costMults⟩
    | some s =>
      match mapExcept (fun cm => rowOf inputs s cm usd_try_rate) costMults with
      | .error e => .error e
      | .ok grid => .ok ⟨base_out, grid, salesMults, costMults⟩

/-- The per-cell input modification as the spec describes it: the same
inputs with the sale price and the construction-cost override replaced. -/
def overrideIn (i : Inputs) (s c : ℚ) : Inputs :=
  { i with satis_birim_fiyat_usd_m2 := some s, insaat_maliyet_usd_m2 := some c }

/-- The base construction cost per m2 the sensitivity loop scales: the
explicit override when present, else the housing-class default. -/
def costBase (i : Inputs) : Option ℚ :=
  match i.insaat_maliyet_usd_m2 with
  | some c => some c
  | none =>
    match i.konut_sinifi with
    | some cls => insaatMaliyetDefault cls
    | none => none

/-- A placeholder output record (all numbers 0, all optional fields none),
used only to read back the components of a computation already known to
succeed. -/
def dummyOutput : Output := coreOutputs 0 0 0 0 0 0 0 none none

/-- First component (the output record) of a successful calculator call. -/
def outPart (i : Inputs) (rate : Option ℚ) : Output :=
  match compute_outputs i rate with
  | .ok p => p.1
  | .error _ => dummyOutput

/-- Second component (the warning list) of a successful calculator call. -/
def warnPart (i : Inputs) (rate : Option ℚ) : List String :=
  match compute_outputs i rate with
  | .ok p => p.2
  | .error _ => []

/-- The record of a successful sensitivity call. -/
def sensPart (i : Inputs) (rate : Option ℚ) : SensResult :=
  match sensitivity i rate with
  | .ok r => r
  | .error _ => ⟨dummyOutput, [], [], []⟩

/-- Whether a sensitivity call succeeded. -/
def sensOk (i : Inputs) (rate : Option ℚ) : Bool :=
  match sensitivity i rate with
  | .ok _ => true
  | .error _ => false

/-- The worked example of the spec: land 5000 m2, ratio 1.8, OPEN parking,
MID class, land value 2,500,000 USD, average unit 100 m2, everything else
defaulted, no exchange rate, no sale price. -/
def c1Inputs : Inputs :=
  { arsa_alani_m2 := some 5000, emsal := some (9/5), satilabilir_katsayi := none,
    otopark_tipi := some "ACIK", otopark_katsayi := none, konut_sinifi := some "ORTA",
    insaat_maliyet_usd_m2 := none, arsa_toplam_degeri_usd := some 2500000,
    ortalama_konut_m2 := some 100, satis_birim_fiyat_usd_m2 := none }

/-- The worked example with a sale price of 1800 USD/m2. -/
def c2In : Inputs := { c1Inputs with satis_birim_fiyat_usd_m2 := some 1800 }

/-- The worked example with its required `emsal` field removed. -/
def m1In : Inputs := { c1Inputs with emsal := none }

/-- All required fields present, but the parking type is an unrecognized
enum value, with an explicit parking coefficient supplied. -/
def garajInputs : Inputs :=
  { c1Inputs with otopark_tipi := some "GARAJ", otopark_katsayi := some (3/2) }

/-- Required fields present with zero land area and zero land value: the
sellable area and the total cost are both 0. -/
def zeroInputs : Inputs :=
  { arsa_alani_m2 := some 0, emsal := some 1, satilabilir_katsayi := none,
    otopark_tipi := some "ACIK", otopark_katsayi := none, konut_sinifi := some "ORTA",
    insaat_maliyet_usd_m2 := none, arsa_toplam_degeri_usd := some 0,
    ortalama_konut_m2 := none, satis_birim_fiyat_usd_m2 := none }

/-- Degenerate input (zero land area and value, no sale price) with an
average unit size of 50 m2, which fires the plausibility warning. -/
def w1In : Inputs :=
  { arsa_alani_m2 := some 0, emsal := some 1, satilabilir_katsayi := none,
    otopark_tipi := some "ACIK", otopark_katsayi := none, konut_sinifi := some "ORTA",
    insaat_maliyet_usd_m2 := none, arsa_toplam_degeri_usd := some 0,
    ortalama_konut_m2 := some 50, satis_birim_fiyat_usd_m2 := none }

/-- Same as `w1In` but with average unit size 120 m2 (no plausibility
warning); all output fields coincide with those of `w1In`. -/
def w2In : Inputs := { w1In with ortalama_konut_m2 := some 120 }

/-- The worked example with a sale price present but equal to 0. -/
def c10In : Inputs := { c1Inputs with satis_birim_fiyat_usd_m2 := some 0 }

/-- Abbreviation for the grid cell the analyzer produces on the worked
example with sale price 1800 at the given multipliers. -/
def c2cell (sm cm : ℚ) : SensCell :=
  ⟨sm, cm,
   (outPart (overrideIn c2In (1800 * sm) (900 * cm)) none).proje_kari_usd,
   (outPart (overrideIn c2In (1800 * sm) (900 * cm)) none).proje_kari_try,
   (outPart (overrideIn c2In (1800 * sm) (900 * cm)) none).brut_karlilik_orani⟩

/-! Helper lemmas -/

theorem requiredMissing_eq_none {i : Inputs} :
    requiredMissing i = none ↔ requiredPresent i := by
  unfold requiredMissing requiredPresent
  split_ifs with h1 h2 h3 h4 h5 <;> simp_all

theorem compute_ok_elim {i : Inputs} {rate : Option ℚ} {o : Output}
    {w : List String} (h : compute_outputs i rate = .ok (o, w)) :
    ∃ od insd,
      otoparkKatsayiDefault (i.otopark_tipi.getD "") = some od ∧
      insaatMaliyetDefault (i.konut_sinifi.getD "") = some insd ∧
      o = coreOutputs (i.arsa_alani_m2.getD 0) (i.emsal.getD 0)
            (i.satilabilir_katsayi.getD (5/4)) (i.otopark_katsayi.getD od)
            (i.insaat_maliyet_usd_m2.getD insd) (i.arsa_toplam_degeri_usd.getD 0)
            (i.ortalama_konut_m2.getD 120) i.satis_birim_fiyat_usd_m2 rate := by
  unfold compute_outputs at h
  cases hm : requiredMissing i <;> rw [hm] at h
  case some => simp at h
  case none =>
    cases ho : otoparkKatsayiDefault (i.otopark_tipi.getD "") <;> rw [ho] at h
    case none => simp at h
    case some od =>
      cases hi2 : insaatMaliyetDefault (i.konut_sinifi.getD "") <;> rw [hi2] at h
      case none => simp at h
      case some insd =>
        refine ⟨od, insd, rfl, rfl, ?_⟩
        have h2 := congrArg Prod.fst (Except.ok.inj h)
        exact h2.symm

theorem compute_ok_intro {i : Inputs} {rate : Option ℚ} {od insd : ℚ}
    (hm : requiredMissing i = none)
    (ho : otoparkKatsayiDefault (i.otopark_tipi.getD "") = some od)
    (hi2 : insaatMaliyetDefault (i.konut_sinifi.getD "") = some insd) :
    compute_outputs i rate = .ok (mkResult i rate od insd) := by
  unfold compute_outputs
  rw [hm, ho, hi2]

theorem mapExcept_ok_length {f : α → Except CalcErr β} :
    ∀ {xs : List α} {ys : List β}, mapExcept f xs = .ok ys → ys.length = xs.length := by
  intro xs
  induction xs with
  | nil => intro ys h; unfold mapExcept at h; cases h; rfl
  | cons x xs ih =>
    intro ys h
    unfold mapExcept at h
    cases hf : f x <;> rw [hf] at h
    · cases h
    · cases hr : mapExcept f xs <;> rw [hr] at h
      · cases h
      · cases h; simp [ih hr]

theorem mapExcept_ok_mem {f : α → Except CalcErr β} :
    ∀ {xs : List α} {ys : List β}, mapExcept f xs = .ok ys →
      ∀ y ∈ ys, ∃ x ∈ xs, f x = .ok y := by
  intro xs
  induction xs with
  | nil => intro ys h; unfold mapExcept at h; cases h; intro y hy; cases hy
  | cons x xs ih =>
    intro ys h
    unfold mapExcept at h
    cases hf : f x <;> rw [hf] at h
    · cases h
    · cases hr : mapExcept f xs <;> rw [hr] at h
      · cases h
      · cases h
        intro y hy
        rcases List.mem_cons.mp hy with hy | hy
        · exact ⟨x, List.mem_cons_self x xs, hy ▸ hf⟩
        · rcases ih hr y hy with ⟨x', hx', hfx'⟩
          exact ⟨x', List.mem_cons_of_mem x hx', hfx'⟩

theorem sensTmp_eq {i : Inputs} {c0 : ℚ} (s sm cm : ℚ) (h : costBase i = some c0) :
    sensTmp i s sm cm = .ok (overrideIn i (s * sm) (c0 * cm)) := by
  cases hc : i.insaat_maliyet_usd_m2 with
  | some c =>
    have hcc : c = c0 := by simpa [costBase, hc] using h
    subst hcc
    simp [sensTmp, overrideIn, hc]
  | none =>
    cases hk : i.konut_sinifi with
    | none => simp [costBase, hc, hk] at h
    | some cls =>
      have hd : insaatMaliyetDefault cls = some c0 := by
        simpa [costBase, hc, hk] using h
      simp [sensTmp, overrideIn, hc, hk, hd]

theorem sensTmp_ok_elim {i : Inputs} {s sm cm : ℚ} {tmp : Inputs}
    (h : sensTmp i s sm cm = .ok tmp) :
    tmp.satis_birim_fiyat_usd_m2 = some (s * sm) := by
  cases hc : i.insaat_maliyet_usd_m2 with
  | some c =>
    simp only [sensTmp, hc] at h
    obtain rfl := Except.ok.inj h
    rfl
  | none =>
    cases hk : i.konut_sinifi with
    | none => simp [sensTmp, hc, hk] at h
    | some cls =>
      cases hd : insaatMaliyetDefault cls with
      | none => simp [sensTmp, hc, hk, hd] at h
      | some d =>
        simp only [sensTmp, hc, hk, hd] at h
        obtain rfl := Except.ok.inj h
        rfl

theorem cellOf_ok_elim {i : Inputs} {s sm cm : ℚ} {rate : Option ℚ} {c : SensCell}
    (h : cellOf i s sm cm rate = .ok c) :
    ∃ tmp out w, sensTmp i s sm cm = .ok tmp ∧
      compute_outputs tmp rate = .ok (out, w) ∧
      c = ⟨sm, cm, out.proje_kari_usd, out.proje_kari_try, out.brut_karlilik_orani⟩ := by
  cases ht : sensTmp i s sm cm with
  | error e => simp [cellOf, ht] at h
  | ok tmp =>
    cases hc : compute_outputs tmp rate with
    | error e => simp [cellOf, ht, hc] at h
    | ok p =>
      obtain ⟨out, w⟩ := p
      simp only [cellOf, ht, hc] at h
      obtain rfl := Except.ok.inj h
      exact ⟨tmp, out, w, rfl, hc, rfl⟩

theorem revenue_off_of_nonpos {i : Inputs} {rate : Option ℚ} {o : Output}
    {w : List String} {s : ℚ} (h : compute_outputs i rate = .ok (o, w))
    (hs : i.satis_birim_fiyat_usd_m2 = some s) (hle : s ≤ 0) :
    o.proje_kari_usd = none ∧ o.proje_kari_try = none ∧
    o.brut_karlilik_orani = none := by
  obtain ⟨od, insd, _, _, rfl⟩ := compute_ok_elim h
  simp [coreOutputs, revTriple, hs, not_lt.mpr hle, toTryOpt]

/-! Claim theorems -/

/-- C1: on the worked example (land 5000, ratio 1.8, OPEN parking, MID
class, land value 2,500,000, average unit 100, other optional fields
defaulted) the calculator returns floor area 9000, sellable area 11250,
built area 13500, construction cost 12,150,000, total cost 14,650,000,
breakeven price 14,650,000/11,250, unit count 112 and remaining area 50. -/
theorem c1_worked_example :
    (compute_outputs c1Inputs none).map (fun p => p.1.emsal_insaat_alani_m2) = .ok 9000 ∧
    (compute_outputs c1Inputs none).map (fun p => p.1.satilabilir_alan_m2) = .ok 11250 ∧
    (compute_outputs c1Inputs none).map (fun p => p.1.toplam_insaat_alani_m2) = .ok 13500 ∧
    (compute_outputs c1Inputs none).map (fun p => p.1.insaat_maliyeti_usd) = .ok 12150000 ∧
    (compute_outputs c1Inputs none).map (fun p => p.1.toplam_proje_maliyeti_usd) = .ok 14650000 ∧
    (compute_outputs c1Inputs none).map (fun p => p.1.breakeven_usd_m2) = .ok (14650000 / 11250) ∧
    (compute_outputs c1Inputs none).map (fun p => p.1.yaklasik_konut_adedi) = .ok 112 ∧
    (compute_outputs c1Inputs none).map (fun p => p.1.kalan_satilabilir_alan_m2) = .ok 50 := by
  have hc : compute_outputs c1Inputs none = .ok (mkResult c1Inputs none (6/5) 900) := rfl
  refine ⟨?_, ?_, ?_, ?_, ?_, ?_, ?_, ?_⟩ <;>
    (rw [hc]
     norm_num [Except.map, mkResult, coreOutputs, c1Inputs, revTriple, toTryVal, toTryOpt])

/-- C3: when any of the five required fields is absent the calculator
fails with a missing-field error naming one of the missing fields and
returns no output; when all five are present no missing-field error is
ever raised. -/
theorem missing_field_check (i : Inputs) (rate : Option ℚ) :
    (¬ requiredPresent i →
      ∃ k, compute_outputs i rate = .error (.missingField k) ∧
        ((k = "arsa_alani_m2" ∧ i.arsa_alani_m2 = none) ∨
         (k = "emsal" ∧ i.emsal = none) ∨
         (k = "otopark_tipi" ∧ i.otopark_tipi = none) ∨
         (k = "konut_sinifi" ∧ i.konut_sinifi = none) ∨
         (k = "arsa_toplam_degeri_usd" ∧ i.arsa_toplam_degeri_usd = none))) ∧
    (requiredPresent i →
      ∀ k, compute_outputs i rate ≠ .error (.missingField k)) := by
  constructor
  · intro hnp
    cases hm : requiredMissing i with
    | none => exact absurd (requiredMissing_eq_none.mp hm) hnp
    | some k =>
      refine ⟨k, ?_, ?_⟩
      · unfold compute_outputs
        rw [hm]
      · unfold requiredMissing at hm
        split_ifs at hm with h1 h2 h3 h4 h5 <;> cases hm <;> simp_all
  · intro hp k
    have hm : requiredMissing i = none := requiredMissing_eq_none.mpr hp
    unfold compute_outputs
    rw [hm]
    cases ho : otoparkKatsayiDefault (i.otopark_tipi.getD "") with
    | none => simp
    | some od =>
      cases hi2 : insaatMaliyetDefault (i.konut_sinifi.getD "") with
      | none => simp
      | some insd => simp

/-- Witness for C3: the calculator rejects the worked example with its
`emsal` field removed, and raises no missing-field error on the full
worked example. -/
theorem missing_field_check_witness :
    (∃ k, compute_outputs m1In none = .error (.missingField k) ∧
        ((k = "arsa_alani_m2" ∧ m1In.arsa_alani_m2 = none) ∨
         (k = "emsal" ∧ m1In.emsal = none) ∨
         (k = "otopark_tipi" ∧ m1In.otopark_tipi = none) ∨
         (k = "konut_sinifi" ∧ m1In.konut_sinifi = none) ∨
         (k = "arsa_toplam_degeri_usd" ∧ m1In.arsa_toplam_degeri_usd = none))) ∧
    (∀ k, compute_outputs c1Inputs none ≠ .error (.missingField k)) :=
  ⟨(missing_field_check m1In none).1 (by decide),
   (missing_field_check c1Inputs none).2 (by decide)⟩

/-- C4: with required fields present, the revenue-mode fields (revenue,
profit, gross margin) are non-null iff the sale price is present and
strictly positive; when absent or nonpositive they stay null. -/
theorem revenue_mode_iff (i : Inputs) (rate : Option ℚ) (o : Output)
    (w : List String) (h : compute_outputs i rate = .ok (o, w)) :
    ((∃ s, i.satis_birim_fiyat_usd_m2 = some s ∧ 0 < s) →
      o.proje_hasilati_usd ≠ none ∧ o.proje_kari_usd ≠ none ∧
      o.brut_karlilik_orani ≠ none) ∧
    ((i.satis_birim_fiyat_usd_m2 = none ∨
        ∃ s, i.satis_birim_fiyat_usd_m2 = some s ∧ s ≤ 0) →
      o.proje_hasilati_usd = none ∧ o.proje_kari_usd = none ∧
      o.brut_karlilik_orani = none) := by
  obtain ⟨od, insd, _, _, rfl⟩ := compute_ok_elim h
  constructor
  · rintro ⟨s, hs, hpos⟩
    simp [coreOutputs, revTriple, hs, hpos]
  · rintro (hs | ⟨s, hs, hle⟩)
    · simp [coreOutputs, revTriple, hs]
    · simp [coreOutputs, revTriple, hs, not_lt.mpr hle]

/-- Witness for C4: with sale price 1800 the revenue fields are filled;
with no sale price they are null. -/
theorem revenue_mode_iff_witness :
    ((outPart c2In none).proje_hasilati_usd ≠ none ∧
     (outPart c2In none).proje_kari_usd ≠ none ∧
     (outPart c2In none).brut_karlilik_orani ≠ none) ∧
    ((outPart c1Inputs none).proje_hasilati_usd = none ∧
     (outPart c1Inputs none).proje_kari_usd = none ∧
     (outPart c1Inputs none).brut_karlilik_orani = none) :=
  ⟨(revenue_mode_iff c2In none (outPart c2In none) (warnPart c2In none) rfl).1
      ⟨1800, rfl, by norm_num⟩,
   (revenue_mode_iff c1Inputs none (outPart c1Inputs none) (warnPart c1Inputs none) rfl).2
      (Or.inl rfl)⟩

/-- C5: with required fields present, each mirrored-currency field
(construction cost, land value, total cost, breakeven, three targets) is
null when no exchange rate was supplied, and equals the corresponding
USD value times the rate when one was. -/
theorem mirrored_try_fields (i : Inputs) (rate : Option ℚ) (o : Output)
    (w : List String) (h : compute_outputs i rate = .ok (o, w)) :
    (rate = none →
      o.insaat_maliyeti_try = none ∧ o.arsa_degeri_try = none ∧
      o.toplam_proje_maliyeti_try = none ∧ o.breakeven_try_m2 = none ∧
      o.target_10_try_m2 = none ∧ o.target_30_try_m2 = none ∧
      o.target_50_try_m2 = none) ∧
    (∀ r, rate = some r →
      o.insaat_maliyeti_try = some (o.insaat_maliyeti_usd * r) ∧
      o.arsa_degeri_try = some (o.arsa_degeri_usd * r) ∧
      o.toplam_proje_maliyeti_try = some (o.toplam_proje_maliyeti_usd * r) ∧
      o.breakeven_try_m2 = some (o.breakeven_usd_m2 * r) ∧
      o.target_10_try_m2 = some (o.target_10_usd_m2 * r) ∧
      o.target_30_try_m2 = some (o.target_30_usd_m2 * r) ∧
      o.target_50_try_m2 = some (o.target_50_usd_m2 * r)) := by
  obtain ⟨od, insd, _, _, rfl⟩ := compute_ok_elim h
  constructor
  · rintro rfl
    simp [coreOutputs, toTryVal]
  · rintro r rfl
    simp [coreOutputs, toTryVal]

/-- Witness for C5: with no rate the mirrored fields of the worked example
are null; with rate 40 they are the USD values times 40. -/
theorem mirrored_try_fields_witness :
    ((outPart c1Inputs none).insaat_maliyeti_try = none ∧
     (outPart c1Inputs none).arsa_degeri_try = none ∧
     (outPart c1Inputs none).toplam_proje_maliyeti_try = none ∧
     (outPart c1Inputs none).breakeven_try_m2 = none ∧
     (outPart c1Inputs none).target_10_try_m2 = none ∧
     (outPart c1Inputs none).target_30_try_m2 = none ∧
     (outPart c1Inputs none).target_50_try_m2 = none) ∧
    ((outPart c1Inputs (some 40)).insaat_maliyeti_try =
        some ((outPart c1Inputs (some 40)).insaat_maliyeti_usd * 40) ∧
     (outPart c1Inputs (some 40)).arsa_degeri_try =
        some ((outPart c1Inputs (some 40)).arsa_degeri_usd * 40) ∧
     (outPart c1Inputs (some 40)).toplam_proje_maliyeti_try =
        some ((outPart c1Inputs (some 40)).toplam_proje_maliyeti_usd * 40) ∧
     (outPart c1Inputs (some 40)).breakeven_try_m2 =
        some ((outPart c1Inputs (some 40)).breakeven_usd_m2 * 40) ∧
     (outPart c1Inputs (some 40)).target_10_try_m2 =
        some ((outPart c1Inputs (some 40)).target_10_usd_m2 * 40) ∧
     (outPart c1Inputs (some 40)).target_30_try_m2 =
        some ((outPart c1Inputs (some 40)).target_30_usd_m2 * 40) ∧
     (outPart c1Inputs (some 40)).target_50_try_m2 =
        some ((outPart c1Inputs (some 40)).target_50_usd_m2 * 40)) :=
  ⟨(mirrored_try_fields c1Inputs none (outPart c1Inputs none)
      (warnPart c1Inputs none) rfl).1 rfl,
   (mirrored_try_fields c1Inputs (some 40) (outPart c1Inputs (some 40))
      (warnPart c1Inputs (some 40)) rfl).2 40 rfl⟩

/-- Counterexample to C7 as stated: with zero land area and zero land
value (all required fields present) the three target prices are all 0, so
they are not strictly increasing. -/
theorem target_prices_cex :
    requiredPresent zeroInputs ∧
    compute_outputs zeroInputs none =
      .ok (outPart zeroInputs none, warnPart zeroInputs none) ∧
    ¬ ((outPart zeroInputs none).target_10_usd_m2 <
        (outPart zeroInputs none).target_30_usd_m2) := by
  refine ⟨by decide, rfl, ?_⟩
  have ho : outPart zeroInputs none = (mkResult zeroInputs none (6/5) 900).1 := rfl
  rw [ho]
  norm_num [mkResult, coreOutputs, zeroInputs, revTriple, toTryVal, toTryOpt]

/-- C7 amended: when the sellable area and the total cost are strictly
positive the target prices are strictly increasing in the margin, and
whenever the sellable area is positive each target price satisfies
target(m) x sellable_area = total_cost x (1+m) exactly. -/
theorem target_prices_amended (i : Inputs) (rate : Option ℚ) (o : Output)
    (w : List String) (h : compute_outputs i rate = .ok (o, w)) :
    (0 < o.satilabilir_alan_m2 → 0 < o.toplam_proje_maliyeti_usd →
      o.target_10_usd_m2 < o.target_30_usd_m2 ∧
      o.target_30_usd_m2 < o.target_50_usd_m2) ∧
    (0 < o.satilabilir_alan_m2 →
      o.target_10_usd_m2 * o.satilabilir_alan_m2 =
        o.toplam_proje_maliyeti_usd * (1 + 1/10) ∧
      o.target_30_usd_m2 * o.satilabilir_alan_m2 =
        o.toplam_proje_maliyeti_usd * (1 + 3/10) ∧
      o.target_50_usd_m2 * o.satilabilir_alan_m2 =
        o.toplam_proje_maliyeti_usd * (1 + 5/10)) := by
  obtain ⟨od, insd, _, _, rfl⟩ := compute_ok_elim h
  constructor
  · intro hsat htop
    simp only [coreOutputs] at hsat htop ⊢
    rw [if_pos hsat, if_pos hsat, if_pos hsat]
    constructor
    · rw [div_lt_div_iff_of_pos_right hsat]
      exact (mul_lt_mul_left htop).mpr (by norm_num)
    · rw [div_lt_div_iff_of_pos_right hsat]
      exact (mul_lt_mul_left htop).mpr (by norm_num)
  · intro hsat
    simp only [coreOutputs] at hsat ⊢
    rw [if_pos hsat, if_pos hsat, if_pos hsat]
    refine ⟨?_, ?_, ?_⟩ <;> exact div_mul_cancel₀ _ (ne_of_gt hsat)

/-- Witness for C7: on the worked example the sellable area and total
cost are positive and the target prices strictly increase. -/
theorem target_prices_amended_witness :
    (0 < (outPart c1Inputs none).satilabilir_alan_m2 ∧
     0 < (outPart c1Inputs none).toplam_proje_maliyeti_usd) ∧
    ((outPart c1Inputs none).target_10_usd_m2 <
       (outPart c1Inputs none).target_30_usd_m2 ∧
     (outPart c1Inputs none).target_30_usd_m2 <
       (outPart c1Inputs none).target_50_usd_m2) := by
  have ho : outPart c1Inputs none = (mkResult c1Inputs none (6/5) 900).1 := rfl
  have hsat : 0 < (outPart c1Inputs none).satilabilir_alan_m2 := by
    rw [ho]; norm_num [mkResult, coreOutputs, c1Inputs]
  have htop : 0 < (outPart c1Inputs none).toplam_proje_maliyeti_usd := by
    rw [ho]; norm_num [mkResult, coreOutputs, c1Inputs]
  exact ⟨⟨hsat, htop⟩,
    (target_prices_amended c1Inputs none (outPart c1Inputs none)
      (warnPart c1Inputs none) rfl).1 hsat htop⟩

/-- C8: with required fields present, the unit count is the floor of
sellable area over average unit size when that size and the quotient are
positive; whenever the unit count is positive the remaining area is
nonnegative, below the average unit size, and equals sellable area minus
unit count times unit size; when the unit count is 0 the remaining area
is the whole sellable area. -/
theorem unit_count_props (i : Inputs) (rate : Option ℚ) (o : Output)
    (w : List String) (h : compute_outputs i rate = .ok (o, w)) :
    (0 < i.ortalama_konut_m2.getD 120 →
     0 < o.satilabilir_alan_m2 / i.ortalama_konut_m2.getD 120 →
      o.yaklasik_konut_adedi =
        ⌊o.satilabilir_alan_m2 / i.ortalama_konut_m2.getD 120⌋) ∧
    (0 < o.yaklasik_konut_adedi →
      0 ≤ o.kalan_satilabilir_alan_m2 ∧
      o.kalan_satilabilir_alan_m2 < i.ortalama_konut_m2.getD 120 ∧
      o.kalan_satilabilir_alan_m2 =
        o.satilabilir_alan_m2 -
          (o.yaklasik_konut_adedi : ℚ) * i.ortalama_konut_m2.getD 120) ∧
    (o.yaklasik_konut_adedi = 0 →
      o.kalan_satilabilir_alan_m2 = o.satilabilir_alan_m2) := by
  obtain ⟨od, insd, _, _, rfl⟩ := compute_ok_elim h
  simp only [coreOutputs]
  set ortk := i.ortalama_konut_m2.getD 120 with hortk
  set S := i.arsa_alani_m2.getD 0 * i.emsal.getD 0 *
    i.satilabilir_katsayi.getD (5/4) with hS
  refine ⟨?_, ?_, ?_⟩
  · intro hort hq
    rw [if_pos hort, if_pos hq]
  · intro hpos
    by_cases hort : 0 < ortk
    · rw [if_pos hort] at hpos ⊢
      by_cases hq : 0 < S / ortk
      · rw [if_pos hq] at hpos ⊢
        rw [if_pos hpos]
        have hfr : S - (⌊S / ortk⌋ : ℚ) * ortk = ortk * Int.fract (S / ortk) := by
          rw [Int.fract]
          have hmul : ortk * (S / ortk) = S := by
            field_simp
          rw [mul_sub, hmul]
          ring
        refine ⟨?_, ?_, rfl⟩
        · rw [hfr]
          exact mul_nonneg hort.le (Int.fract_nonneg _)
        · rw [hfr]
          calc ortk * Int.fract (S / ortk) < ortk * 1 :=
                (mul_lt_mul_left hort).mpr (Int.fract_lt_one _)
            _ = ortk := mul_one ortk
      · rw [if_neg hq] at hpos
        exact absurd hpos (by norm_num)
    · rw [if_neg hort] at hpos ⊢
      rw [if_neg (by norm_num : ¬ (0:ℚ) < 0)] at hpos
      exact absurd hpos (by norm_num)
  · intro h0
    rw [h0]
    norm_num

/-- Witness for C8: on the worked example the average unit size is 100,
the quotient 112.5 is positive, the unit count is the floor 112 and the
remaining area 50 satisfies the bounds. -/
theorem unit_count_props_witness :
    (0 < c1Inputs.ortalama_konut_m2.getD 120 ∧
     0 < (outPart c1Inputs none).satilabilir_alan_m2 /
          c1Inputs.ortalama_konut_m2.getD 120 ∧
     0 < (outPart c1Inputs none).yaklasik_konut_adedi) ∧
    ((outPart c1Inputs none).yaklasik_konut_adedi =
       ⌊(outPart c1Inputs none).satilabilir_alan_m2 /
          c1Inputs.ortalama_konut_m2.getD 120⌋) ∧
    (0 ≤ (outPart c1Inputs none).kalan_satilabilir_alan_m2 ∧
     (outPart c1Inputs none).kalan_satilabilir_alan_m2 <
       c1Inputs.ortalama_konut_m2.getD 120 ∧
     (outPart c1Inputs none).kalan_satilabilir_alan_m2 =
       (outPart c1Inputs none).satilabilir_alan_m2 -
         ((outPart c1Inputs none).yaklasik_konut_adedi : ℚ) *
           c1Inputs.ortalama_konut_m2.getD 120) := by
  have ho : outPart c1Inputs none = (mkResult c1Inputs none (6/5) 900).1 := rfl
  have hort : 0 < c1Inputs.ortalama_konut_m2.getD 120 := by
    norm_num [c1Inputs]
  have hq : 0 < (outPart c1Inputs none).satilabilir_alan_m2 /
      c1Inputs.ortalama_konut_m2.getD 120 := by
    rw [ho]; norm_num [mkResult, coreOutputs, c1Inputs]
  have hpos : 0 < (outPart c1Inputs none).yaklasik_konut_adedi := by
    rw [ho]; norm_num [mkResult, coreOutputs, c1Inputs]
  refine ⟨⟨hort, hq, hpos⟩, ?_, ?_⟩
  · exact (unit_count_props c1Inputs none (outPart c1Inputs none)
      (warnPart c1Inputs none) rfl).1 hort hq
  · exact (unit_count_props c1Inputs none (outPart c1Inputs none)
      (warnPart c1Inputs none) rfl).2.1 hpos

/-- Counterexample to C6 as stated: all five required fields are present
(and even an explicit parking coefficient is supplied), yet the calculator
raises a `KeyError` because `dict.get` evaluates the `DEFAULTS` lookup for
the unrecognized parking type "GARAJ" eagerly. -/
theorem totality_cex :
    requiredPresent garajInputs ∧
    compute_outputs garajInputs none = .error (.keyError "GARAJ") := by
  constructor
  · decide
  · rfl

/-- C6 amended: the calculator is total once the required fields are
present and the two enum-valued fields carry recognized values (OPEN or
ENCLOSED parking; LOW, MID or HIGH housing class): it then always returns
an output record and a warning list, whatever the numeric values; a
nonpositive sellable area or total cost is handled by substituting 0 for
the price/margin results rather than raising. -/
theorem totality_amended (i : Inputs) (rate : Option ℚ)
    (hreq : requiredPresent i)
    (hoto : (otoparkKatsayiDefault (i.otopark_tipi.getD "")).isSome)
    (hins : (insaatMaliyetDefault (i.konut_sinifi.getD "")).isSome) :
    (∃ o w, compute_outputs i rate = .ok (o, w)) ∧
    (∀ o w, compute_outputs i rate = .ok (o, w) →
      (o.satilabilir_alan_m2 ≤ 0 →
        o.breakeven_usd_m2 = 0 ∧ o.target_10_usd_m2 = 0 ∧
        o.target_30_usd_m2 = 0 ∧ o.target_50_usd_m2 = 0) ∧
      (o.toplam_proje_maliyeti_usd ≤ 0 →
        o.brut_karlilik_orani = none ∨ o.brut_karlilik_orani = some 0)) := by
  constructor
  · have hm : requiredMissing i = none := requiredMissing_eq_none.mpr hreq
    obtain ⟨od, hod⟩ := Option.isSome_iff_exists.mp hoto
    obtain ⟨insd, hinsd⟩ := Option.isSome_iff_exists.mp hins
    exact ⟨_, _, compute_ok_intro hm hod hinsd⟩
  · intro o w h
    obtain ⟨od, insd, _, _, rfl⟩ := compute_ok_elim h
    constructor
    · intro hsat
      simp only [coreOutputs] at hsat ⊢
      rw [if_neg (not_lt.mpr hsat), if_neg (not_lt.mpr hsat),
        if_neg (not_lt.mpr hsat), if_neg (not_lt.mpr hsat)]
      exact ⟨rfl, rfl, rfl, rfl⟩
    · intro htop
      simp only [coreOutputs] at htop ⊢
      cases hsal : i.satis_birim_fiyat_usd_m2 with
      | none => left; simp [revTriple]
      | some sp =>
        by_cases hp : 0 < sp
        · right
          simp only [revTriple, hp, if_true]
          rw [if_neg (not_lt.mpr htop)]
          simp
        · left
          simp [revTriple, hp]

/-- Witness for C6 amended: the degenerate zero-area input satisfies the
hypotheses, the calculator succeeds on it, and the zero-guard fires. -/
theorem totality_amended_witness :
    (requiredPresent zeroInputs ∧
     (otoparkKatsayiDefault (zeroInputs.otopark_tipi.getD "")).isSome ∧
     (insaatMaliyetDefault (zeroInputs.konut_sinifi.getD "")).isSome) ∧
    (∃ o w, compute_outputs zeroInputs none = .ok (o, w)) ∧
    ((outPart zeroInputs none).breakeven_usd_m2 = 0 ∧
     (outPart zeroInputs none).target_10_usd_m2 = 0 ∧
     (outPart zeroInputs none).target_30_usd_m2 = 0 ∧
     (outPart zeroInputs none).target_50_usd_m2 = 0) := by
  have happ := totality_amended zeroInputs none (by decide) (by decide) (by decide)
  refine ⟨⟨by decide, by decide, by decide⟩, happ.1, ?_⟩
  have hsat : (outPart zeroInputs none).satilabilir_alan_m2 ≤ 0 := by
    have ho : outPart zeroInputs none = (mkResult zeroInputs none (6/5) 900).1 := rfl
    rw [ho]; norm_num [mkResult, coreOutputs, zeroInputs]
  exact ((happ.2 (outPart zeroInputs none) (warnPart zeroInputs none) rfl).1 hsat)

/-- Counterexample to C9 as stated: `w1In` and `w2In` differ only in the
average unit size (50 vs 120), which changes the base call's warning list
but none of the outputs; the analyzer nevertheless returns identical
(successful) results, so the result cannot surface the base call's
warning list. -/
theorem sens_warnings_cex :
    sensitivity w1In none = sensitivity w2In none ∧
    (compute_outputs w1In none).map (fun p => p.2) ≠
      (compute_outputs w2In none).map (fun p => p.2) ∧
    sensOk w1In none = true := by
  have e1 : sensitivity w1In none =
      .ok ⟨(mkResult w1In none (6/5) 900).1, [], salesMults, costMults⟩ := rfl
  have e2 : sensitivity w2In none =
      .ok ⟨(mkResult w2In none (6/5) 900).1, [], salesMults, costMults⟩ := rfl
  refine ⟨?_, ?_, rfl⟩
  · rw [e1, e2]
    norm_num [mkResult, coreOutputs, w1In, w2In, revTriple, toTryVal, toTryOpt]
  · intro hcon
    have h1 : (compute_outputs w1In none).map (fun p => p.2) =
        .ok (mkResult w1In none (6/5) 900).2 := rfl
    have h2 : (compute_outputs w2In none).map (fun p => p.2) =
        .ok (mkResult w2In none (6/5) 900).2 := rfl
    rw [h1, h2] at hcon
    norm_num [mkResult, coreOutputs, coreWarnings, w1In, w2In,
      revTriple, toTryVal, toTryOpt] at hcon

/-- C9 amended: the analyzer surfaces the base output record unchanged,
but no warning list at all: the base call\'s warnings and the nine
sub-calls\' warnings are all discarded (the result holds only the base
output, the grid and the two multiplier lists). -/
theorem sens_discards_warnings (i : Inputs) (rate : Option ℚ)
    (r : SensResult) (h : sensitivity i rate = .ok r) :
    ∃ wb, compute_outputs i rate = .ok (r.base, wb) := by
  unfold sensitivity at h
  cases hc : compute_outputs i rate with
  | error e =>
    rw [hc] at h
    cases h
  | ok p =>
    obtain ⟨b, w⟩ := p
    rw [hc] at h
    refine ⟨w, ?_⟩
    cases hs : i.satis_birim_fiyat_usd_m2 with
    | none =>
      rw [hs] at h
      obtain rfl := Except.ok.inj h
      rfl
    | some s =>
      simp only [hs] at h
      cases hg : mapExcept (fun cm => rowOf i s cm rate) costMults with
      | error e =>
        rw [hg] at h
        cases h
      | ok g =>
        rw [hg] at h
        obtain rfl := Except.ok.inj h
        rfl

/-- Witness for C9 amended: on the worked example with sale price 1800
the analyzer's base component is exactly the calculator's output. -/
theorem sens_discards_warnings_witness :
    (sensitivity c2In none = .ok (sensPart c2In none)) ∧
    (∃ wb, compute_outputs c2In none = .ok ((sensPart c2In none).base, wb)) :=
  ⟨rfl, sens_discards_warnings c2In none (sensPart c2In none) rfl⟩

/-- C10: when the sale price is present but nonpositive the analyzer does
not short-circuit: it returns a full 3x3 grid in which every cell's
profit (both currencies) and gross margin are null, since every scaled
sale price stays nonpositive and revenue mode never activates. -/
theorem sens_nonpositive_price (i : Inputs) (rate : Option ℚ) (s : ℚ)
    (r : SensResult) (hs : i.satis_birim_fiyat_usd_m2 = some s)
    (hle : s ≤ 0) (hr : sensitivity i rate = .ok r) :
    r.grid.length = 3 ∧
    ∀ row ∈ r.grid, row.length = 3 ∧
      ∀ cell ∈ row, cell.profit_usd = none ∧ cell.profit_try = none ∧
        cell.gross_margin = none := by
  unfold sensitivity at hr
  cases hc : compute_outputs i rate with
  | error e => rw [hc] at hr; cases hr
  | ok p =>
    obtain ⟨b, w⟩ := p
    rw [hc] at hr
    simp only [hs] at hr
    cases hg : mapExcept (fun cm => rowOf i s cm rate) costMults with
    | error e => rw [hg] at hr; cases hr
    | ok g =>
      rw [hg] at hr
      obtain rfl := Except.ok.inj hr
      constructor
      · simpa [costMults] using mapExcept_ok_length hg
      · intro row hrow
        obtain ⟨cm, _, hrowOf⟩ := mapExcept_ok_mem hg row hrow
        unfold rowOf at hrowOf
        constructor
        · simpa [salesMults] using mapExcept_ok_length hrowOf
        · intro cell hcell
          obtain ⟨sm, hsmMem, hcellOf⟩ := mapExcept_ok_mem hrowOf cell hcell
          obtain ⟨tmp, out, w2, htmp, hcomp, rfl⟩ := cellOf_ok_elim hcellOf
          have hsatis := sensTmp_ok_elim htmp
          have hsm0 : (0:ℚ) ≤ sm := by
            simp only [salesMults, List.mem_cons, List.not_mem_nil, or_false] at hsmMem
            rcases hsmMem with rfl | rfl | rfl <;> norm_num
          have hmul : s * sm ≤ 0 := mul_nonpos_iff.mpr (Or.inr ⟨hle, hsm0⟩)
          have hoff := revenue_off_of_nonpos hcomp hsatis hmul
          exact ⟨hoff.1, hoff.2.1, hoff.2.2⟩

/-- Witness for C10: the worked example with sale price 0 yields a 3x3
grid of all-null profit and margin cells. -/
theorem sens_nonpositive_price_witness :
    (c10In.satis_birim_fiyat_usd_m2 = some 0) ∧ ((0:ℚ) ≤ 0) ∧
    ((sensPart c10In none).grid.length = 3 ∧
     ∀ row ∈ (sensPart c10In none).grid, row.length = 3 ∧
       ∀ cell ∈ row, cell.profit_usd = none ∧ cell.profit_try = none ∧
         cell.gross_margin = none) :=
  ⟨rfl, by norm_num,
   sens_nonpositive_price c10In none 0 (sensPart c10In none) rfl (by norm_num) rfl⟩

/-- C2: given a successful base call, (a) with no sale price the analyzer
returns the base output with an empty grid; (b) with a sale price, the
grid is exactly 3x3, rows in ascending cost-multiplier order and columns
in ascending sale-multiplier order, and each cell records the profit
(both currencies) and gross margin of the calculator called on the same
inputs with the sale price scaled by the sale multiplier and the
construction cost (explicit override if present, else the housing-class
default) scaled by the cost multiplier. -/
theorem sensitivity_grid (i : Inputs) (rate : Option ℚ) (b : Output)
    (wb : List String) (hb : compute_outputs i rate = .ok (b, wb)) :
    (i.satis_birim_fiyat_usd_m2 = none →
      sensitivity i rate = .ok ⟨b, [], salesMults, costMults⟩) ∧
    (∀ s c0, i.satis_birim_fiyat_usd_m2 = some s → costBase i = some c0 →
      ∀ o11 w11 o12 w12 o13 w13 o21 w21 o22 w22 o23 w23 o31 w31 o32 w32 o33 w33,
      compute_outputs (overrideIn i (s * (9/10)) (c0 * (9/10))) rate = .ok (o11, w11) →
      compute_outputs (overrideIn i (s * 1) (c0 * (9/10))) rate = .ok (o12, w12) →
      compute_outputs (overrideIn i (s * (11/10)) (c0 * (9/10))) rate = .ok (o13, w13) →
      compute_outputs (overrideIn i (s * (9/10)) (c0 * 1)) rate = .ok (o21, w21) →
      compute_outputs (overrideIn i (s * 1) (c0 * 1)) rate = .ok (o22, w22) →
      compute_outputs (overrideIn i (s * (11/10)) (c0 * 1)) rate = .ok (o23, w23) →
      compute_outputs (overrideIn i (s * (9/10)) (c0 * (11/10))) rate = .ok (o31, w31) →
      compute_outputs (overrideIn i (s * 1) (c0 * (11/10))) rate = .ok (o32, w32) →
      compute_outputs (overrideIn i (s * (11/10)) (c0 * (11/10))) rate = .ok (o33, w33) →
      sensitivity i rate = .ok ⟨b,
        [[⟨9/10, 9/10, o11.proje_kari_usd, o11.proje_kari_try, o11.brut_karlilik_orani⟩,
          ⟨1, 9/10, o12.proje_kari_usd, o12.proje_kari_try, o12.brut_karlilik_orani⟩,
          ⟨11/10, 9/10, o13.proje_kari_usd, o13.proje_kari_try, o13.brut_karlilik_orani⟩],
         [⟨9/10, 1, o21.proje_kari_usd, o21.proje_kari_try, o21.brut_karlilik_orani⟩,
          ⟨1, 1, o22.proje_kari_usd, o22.proje_kari_try, o22.brut_karlilik_orani⟩,
          ⟨11/10, 1, o23.proje_kari_usd, o23.proje_kari_try, o23.brut_karlilik_orani⟩],
         [⟨9/10, 11/10, o31.proje_kari_usd, o31.proje_kari_try, o31.brut_karlilik_orani⟩,
          ⟨1, 11/10, o32.proje_kari_usd, o32.proje_kari_try, o32.brut_karlilik_orani⟩,
          ⟨11/10, 11/10, o33.proje_kari_usd, o33.proje_kari_try, o33.brut_karlilik_orani⟩]],
        salesMults, costMults⟩) := by
  constructor
  · intro hs
    unfold sensitivity
    rw [hb, hs]
  · intro s c0 hs hc0 o11 w11 o12 w12 o13 w13 o21 w21 o22 w22 o23 w23
      o31 w31 o32 w32 o33 w33 h11 h12 h13 h21 h22 h23 h31 h32 h33
    unfold sensitivity
    rw [hb, hs]
    simp only [costMults, salesMults, mapExcept, rowOf, cellOf,
      sensTmp_eq s (9/10 : ℚ) (9/10 : ℚ) hc0, sensTmp_eq s (1 : ℚ) (9/10 : ℚ) hc0,
      sensTmp_eq s (11/10 : ℚ) (9/10 : ℚ) hc0, sensTmp_eq s (9/10 : ℚ) (1 : ℚ) hc0,
      sensTmp_eq s (1 : ℚ) (1 : ℚ) hc0, sensTmp_eq s (11/10 : ℚ) (1 : ℚ) hc0,
      sensTmp_eq s (9/10 : ℚ) (11/10 : ℚ) hc0, sensTmp_eq s (1 : ℚ) (11/10 : ℚ) hc0,
      sensTmp_eq s (11/10 : ℚ) (11/10 : ℚ) hc0,
      h11, h12, h13, h21, h22, h23, h31, h32, h33]

/-- Witness for C2: on the worked example with sale price 1800 the
analyzer returns the base output and the full 3x3 grid of scaled
calculator calls. -/
theorem sensitivity_grid_witness :
    (compute_outputs c2In none = .ok (outPart c2In none, warnPart c2In none)) ∧
    (c2In.satis_birim_fiyat_usd_m2 = some 1800) ∧
    (costBase c2In = some 900) ∧
    sensitivity c2In none = .ok ⟨outPart c2In none,
      [[c2cell (9/10) (9/10), c2cell 1 (9/10), c2cell (11/10) (9/10)],
       [c2cell (9/10) 1, c2cell 1 1, c2cell (11/10) 1],
       [c2cell (9/10) (11/10), c2cell 1 (11/10), c2cell (11/10) (11/10)]],
      salesMults, costMults⟩ :=
  ⟨rfl, rfl, rfl,
   (sensitivity_grid c2In none (outPart c2In none) (warnPart c2In none) rfl).2
    1800 900 rfl rfl
    (outPart (overrideIn c2In (1800 * (9/10)) (900 * (9/10))) none)
    (warnPart (overrideIn c2In (1800 * (9/10)) (900 * (9/10))) none)
    (outPart (overrideIn c2In (1800 * 1) (900 * (9/10))) none)
    (warnPart (overrideIn c2In (1800 * 1) (900 * (9/10))) none)
    (outPart (overrideIn c2In (1800 * (11/10)) (900 * (9/10))) none)
    (warnPart (overrideIn c2In (1800 * (11/10)) (900 * (9/10))) none)
    (outPart (overrideIn c2In (1800 * (9/10)) (900 * 1)) none)
    (warnPart (overrideIn c2In (1800 * (9/10)) (900 * 1)) none)
    (outPart (overrideIn c2In (1800 * 1) (900 * 1)) none)
    (warnPart (overrideIn c2In (1800 * 1) (900 * 1)) none)
    (outPart (overrideIn c2In (1800 * (11/10)) (900 * 1)) none)
    (warnPart (overrideIn c2In (1800 * (11/10)) (900 * 1)) none)
    (outPart (overrideIn c2In (1800 * (9/10)) (900 * (11/10))) none)
    (warnPart (overrideIn c2In (1800 * (9/10)) (900 * (11/10))) none)
    (outPart (overrideIn c2In (1800 * 1) (900 * (11/10))) none)
    (warnPart (overrideIn c2In (1800 * 1) (900 * (11/10))) none)
    (outPart (overrideIn c2In (1800 * (11/10)) (900 * (11/10))) none)
    (warnPart (overrideIn c2In (1800 * (11/10)) (900 * (11/10))) none)
    rfl rfl rfl rfl rfl rfl rfl rfl rfl⟩
